import Mathlib

/-!
# Verification of the OBB collision and first-person movement core

This development embeds (shallowly, over exact rationals) the oriented
bounding box (OBB) collision subsystem of the campus walkthrough viewer:
the `OBB` class (`src/unnamed/part_000` lines 47–198, identical in
`src/main.js` and `src/public/SHD.js`), the player collision probes
`checkHorizontalCollisionOBB` / `checkVerticalCollisionOBB`, the sliding
resolver `getValidMovementOBB`, the vertical section of the `animate`
tick, the camera-shake apply/render/remove sequence, the bunny-hop
multiplier updates, and the collider classification tiers.

Conventions of the embedding:
* JavaScript numbers are modelled as exact rationals (`ℚ`); numeric
  literals of the source (`0.1`, `1.1`, `0.0001`, …) become the exact
  rationals they denote.
* The source's `crossAxis.normalize()` inside `intersectsOBB` is omitted:
  the separating-axis test is invariant under scaling the axis by any
  positive factor (lemma `testSeparatingAxis_smul` below), so dividing a
  candidate axis by its (positive) length never changes the Boolean
  result, and omitting the division keeps the development in `ℚ`.
* Module-level mutable globals (`playerOBB`, `collisionOBBs`, the
  movement flags) become explicit parameters; the uninitialized
  `playerOBB` is modelled as `Option OBB` (`none` before first-person
  activation, matching the `if (!playerOBB)` guards).
* The embedded variant is the one in `src/unnamed/part_000` /
  `src/public/SHD.js` (the two are line-for-line identical in the
  collision core); where `src/main.js` differs it is noted at the
  relevant definition.
-/

/-- A 3-component vector with exact rational coordinates, standing for
`THREE.Vector3`. -/
@[ext]
structure Vec3 where
  x : ℚ
  y : ℚ
  z : ℚ
  deriving DecidableEq, Repr

namespace Vec3

/-- `THREE.Vector3.add` (componentwise). -/
def add (a b : Vec3) : Vec3 := ⟨a.x + b.x, a.y + b.y, a.z + b.z⟩

/-- `THREE.Vector3.subVectors` / `sub` (componentwise). -/
def sub (a b : Vec3) : Vec3 := ⟨a.x - b.x, a.y - b.y, a.z - b.z⟩

/-- Componentwise negation. -/
def neg (a : Vec3) : Vec3 := ⟨-a.x, -a.y, -a.z⟩

/-- Scalar multiple, `THREE.Vector3.multiplyScalar`. -/
def smul (q : ℚ) (a : Vec3) : Vec3 := ⟨q * a.x, q * a.y, q * a.z⟩

/-- `THREE.Vector3.dot`. -/
def dot (a b : Vec3) : ℚ := a.x * b.x + a.y * b.y + a.z * b.z

/-- `THREE.Vector3.crossVectors`. -/
def cross (a b : Vec3) : Vec3 :=
  ⟨a.y * b.z - a.z * b.y, a.z * b.x - a.x * b.z, a.x * b.y - a.y * b.x⟩

/-- `THREE.Vector3.lengthSq`. -/
def lengthSq (a : Vec3) : ℚ := a.x * a.x + a.y * a.y + a.z * a.z

end Vec3

/-- The `OBB` class: world-space `center`, half-size `extents`, and the
three orthonormal world axes derived by `updateAxes()` from the stored
Euler rotation.  `intersectsOBB`, `testSeparatingAxis`,
`getProjectedRadius` and `containsPoint` read only these fields, so the
embedding stores the derived axes directly. -/
structure OBB where
  center : Vec3
  extents : Vec3
  axes : Fin 3 → Vec3

/-- The axes produced by `updateAxes()` for the identity rotation
`new THREE.Euler(0, 0, 0)` (the rotation used for every player/test OBB):
the standard basis. -/
def identAxes : Fin 3 → Vec3 := fun i =>
  match i with
  | 0 => ⟨1, 0, 0⟩
  | 1 => ⟨0, 1, 0⟩
  | 2 => ⟨0, 0, 1⟩

namespace OBB

/-- `getProjectedRadius(axis)`:
`|axes[0]·axis| * extents.x + |axes[1]·axis| * extents.y + |axes[2]·axis| * extents.z`. -/
def getProjectedRadius (b : OBB) (axis : Vec3) : ℚ :=
  |Vec3.dot (b.axes 0) axis| * b.extents.x +
    |Vec3.dot (b.axes 1) axis| * b.extents.y +
    |Vec3.dot (b.axes 2) axis| * b.extents.z

/-- `testSeparatingAxis(axis, other, separation)`: true when the axis does
NOT separate, i.e. the projected separation is `<=` the summed projected
radii. -/
def testSeparatingAxis (a other : OBB) (axis separation : Vec3) : Bool :=
  decide (|Vec3.dot separation axis| ≤
    a.getProjectedRadius axis + other.getProjectedRadius axis)

/-- The cross-product candidate axes of `intersectsOBB`: for every pair
`(i, j)` of axis indices, `this.axes[i] × other.axes[j]`, kept only when
its squared length exceeds `0.0001`.  The source then normalizes the kept
axis; the normalization is omitted here (see the file header and
`testSeparatingAxis_smul`). -/
def crossCandidates (a b : OBB) : List Vec3 :=
  (List.finRange 3).flatMap fun i =>
    (List.finRange 3).filterMap fun j =>
      let crossAxis := Vec3.cross (a.axes i) (b.axes j)
      if crossAxis.lengthSq > 1 / 10000 then some crossAxis else none

/-- The full candidate axis list of `intersectsOBB`:
`[...this.axes, ...other.axes]` followed by the filtered cross products. -/
def candidateAxes (a b : OBB) : List Vec3 :=
  [a.axes 0, a.axes 1, a.axes 2, b.axes 0, b.axes 1, b.axes 2] ++ crossCandidates a b

/-- `intersectsOBB(other)`: `separation = other.center − this.center`; the
boxes intersect iff every candidate axis passes `testSeparatingAxis`
(the loop returns `false` on the first failing axis). -/
def intersectsOBB (a b : OBB) : Bool :=
  let separation := Vec3.sub b.center a.center
  (candidateAxes a b).all fun axis => testSeparatingAxis a b axis separation

/-- The top surface height of an OBB when read as a floor by the
`direction === 'down'` branch of `checkVerticalCollisionOBB`:
`obb.center.y + obb.extents.y`. -/
def topY (b : OBB) : ℚ := b.center.y + b.extents.y

/-- The smallest of the three half-extents. -/
def smallestExtent (b : OBB) : ℚ := min b.extents.x (min b.extents.y b.extents.z)

end OBB

/-! ## Scene constants (src/unnamed/part_000 lines 265–289) -/

/-- `gravity = -18`. -/
def gravity : ℚ := -18

/-- `jumpStrength = 6`. -/
def jumpStrength : ℚ := 6

/-- `maxBunnyHop = 3`. -/
def maxBunnyHop : ℚ := 3

/-- `groundHeight = 1.85`. -/
def groundHeight : ℚ := 37 / 20

/-- `crouchOffset = -0.7`. -/
def crouchOffset : ℚ := -(7 / 10)

/-- `playerRadius = 0.3`. -/
def playerRadius : ℚ := 3 / 10

/-- `playerHeight = 1.5`. -/
def playerHeight : ℚ := 3 / 2

/-- `cameraEyeHeight = 1.35`. -/
def cameraEyeHeight : ℚ := 27 / 20

/-- `playerFeetOffset = 0.05`. -/
def playerFeetOffset : ℚ := 1 / 20

/-! ## Collision probes (src/unnamed/part_000 lines 320–407) -/

/-- The temporary test OBB built by `checkHorizontalCollisionOBB`:
feet at `position.y - cameraEyeHeight`, center half the player height
above the feet, the queried player extents, identity rotation. -/
def horizTestOBB (extents : Vec3) (position : Vec3) : OBB :=
  { center := ⟨position.x, (position.y - cameraEyeHeight) + playerHeight / 2, position.z⟩
    extents := extents
    axes := identAxes }

/-- `checkHorizontalCollisionOBB(position)`: `false` when the player OBB
is uninitialized; otherwise true iff the test OBB intersects some
registered collision OBB (the loop returns on the first hit). -/
def checkHorizontalCollisionOBB (playerOBB : Option OBB) (collisionOBBs : List OBB)
    (position : Vec3) : Bool :=
  match playerOBB with
  | none => false
  | some p =>
    let testOBB := horizTestOBB p.extents position
    collisionOBBs.any fun obb => testOBB.intersectsOBB obb

/-- The thin test OBB built by `checkVerticalCollisionOBB`: centered at
`playerFeetY + playerHeight + 0.1` for `'up'`, at `playerFeetY` for
`'down'`; extents `(playerRadius, 0.1, playerRadius)`; identity
rotation. -/
def vertTestOBB (cameraPos : Vec3) (up : Bool) : OBB :=
  let playerFeetY := cameraPos.y - cameraEyeHeight
  let testY := if up then playerFeetY + playerHeight + 1 / 10 else playerFeetY
  { center := ⟨cameraPos.x, testY, cameraPos.z⟩
    extents := ⟨playerRadius, 1 / 10, playerRadius⟩
    axes := identAxes }

/-- The scan loop of `checkVerticalCollisionOBB`: walks the registry
keeping the lowest ceiling (`'up'`) or highest floor (`'down'`) edge of
the intersecting OBBs.  The source seeds `closestHeight` with
`±Infinity`; the embedding uses `none` for the untouched accumulator,
which the source reads only through `hasCollision`. -/
def vertScanAux (up : Bool) (testOBB : OBB) : List OBB → Option ℚ → Option ℚ
  | [], closest => closest
  | obb :: rest, closest =>
    let closest' :=
      if testOBB.intersectsOBB obb then
        let edgeY := if up then obb.center.y - obb.extents.y else obb.center.y + obb.extents.y
        match closest with
        | none => some edgeY
        | some c => some (if (if up then edgeY < c else edgeY > c) then edgeY else c)
      else closest
    vertScanAux up testOBB rest closest'

/-- `checkVerticalCollisionOBB(cameraPos, direction)`: `(collision?,
resolved camera height)`.  On a `'down'` hit the height is
`closestHeight + cameraEyeHeight + playerFeetOffset`; on an `'up'` hit it
is `closestHeight - playerHeight + cameraEyeHeight`; with no collision
(or an uninitialized player OBB) the queried height is returned
unchanged. -/
def checkVerticalCollisionOBB (playerOBB : Option OBB) (collisionOBBs : List OBB)
    (cameraPos : Vec3) (up : Bool) : Bool × ℚ :=
  match playerOBB with
  | none => (false, cameraPos.y)
  | some _ =>
    let testOBB := vertTestOBB cameraPos up
    match vertScanAux up testOBB collisionOBBs none with
    | some closestHeight =>
      if up then (true, closestHeight - playerHeight + cameraEyeHeight)
      else (true, closestHeight + cameraEyeHeight + playerFeetOffset)
    | none => (false, cameraPos.y)

/-! ## Sliding horizontal resolution (src/unnamed/part_000 lines 411–462) -/

/-- The `for (const factor of reductionFactors)` loop of
`getValidMovementOBB`: at each factor try the scaled full displacement,
then X-only, then Z-only at that scale; `none` when every try collides.
(`src/main.js` instead tries only X-only and Z-only at factor `0.5`.) -/
def tryReductionFactors (playerOBB : Option OBB) (collisionOBBs : List OBB)
    (currentPos : Vec3) (deltaX deltaZ : ℚ) : List ℚ → Option Vec3
  | [] => none
  | factor :: rest =>
    let reducedPos : Vec3 := ⟨currentPos.x + deltaX * factor, currentPos.y,
      currentPos.z + deltaZ * factor⟩
    if !checkHorizontalCollisionOBB playerOBB collisionOBBs reducedPos then some reducedPos
    else
      let reducedXPos : Vec3 := ⟨currentPos.x + deltaX * factor, currentPos.y, currentPos.z⟩
      if !checkHorizontalCollisionOBB playerOBB collisionOBBs reducedXPos then some reducedXPos
      else
        let reducedZPos : Vec3 := ⟨currentPos.x, currentPos.y, currentPos.z + deltaZ * factor⟩
        if !checkHorizontalCollisionOBB playerOBB collisionOBBs reducedZPos then some reducedZPos
        else tryReductionFactors playerOBB collisionOBBs currentPos deltaX deltaZ rest

/-- `getValidMovementOBB(currentPos, desiredPos)`: accept the desired
position when collision-free, else slide along X only, Z only, then the
reduction-factor loop over `[0.8, 0.6, 0.4, 0.2]`; when nothing is
collision-free return `currentPos`. -/
def getValidMovementOBB (playerOBB : Option OBB) (collisionOBBs : List OBB)
    (currentPos desiredPos : Vec3) : Vec3 :=
  if !checkHorizontalCollisionOBB playerOBB collisionOBBs desiredPos then desiredPos
  else
    let deltaX := desiredPos.x - currentPos.x
    let deltaZ := desiredPos.z - currentPos.z
    let xOnlyPos : Vec3 := ⟨currentPos.x + deltaX, currentPos.y, currentPos.z⟩
    if !checkHorizontalCollisionOBB playerOBB collisionOBBs xOnlyPos then xOnlyPos
    else
      let zOnlyPos : Vec3 := ⟨currentPos.x, currentPos.y, currentPos.z + deltaZ⟩
      if !checkHorizontalCollisionOBB playerOBB collisionOBBs zOnlyPos then zOnlyPos
      else
        match tryReductionFactors playerOBB collisionOBBs currentPos deltaX deltaZ
          [8 / 10, 6 / 10, 4 / 10, 2 / 10] with
        | some p => p
        | none => currentPos

/-! ## The vertical section of the `animate` tick
(src/unnamed/part_000 lines 1498–1542) -/

/-- The per-tick simulation state touched by the vertical section of
`animate`: the authoritative camera position, `verticalVelocity`,
`canJump` and `bunnyHopMultiplier`. -/
structure PState where
  pos : Vec3
  verticalVelocity : ℚ
  canJump : Bool
  bunnyHopMultiplier : ℚ
  deriving DecidableEq, Repr

/-- The probed position of the vertical step: the camera moved to
`nextY = y + (verticalVelocity + gravity * delta) * delta`. -/
def tickNextPos (delta : ℚ) (s : PState) : Vec3 :=
  ⟨s.pos.x, s.pos.y + (s.verticalVelocity + gravity * delta) * delta, s.pos.z⟩

/-- The vertical section of the `animate` tick (after horizontal
resolution): integrate gravity, probe up when ascending (clamping to
`upCheck.height - playerHeight - 0.1`) or down otherwise (clamping to
`downCheck.height`, granting `canJump`, and resetting the bunny-hop
multiplier when running with not all four flags held), then apply the
fallback ground clamp at `groundHeight` (whose crouch branch is the
constant `(false) ? ... : groundHeight` in this variant; the fallback
resets the multiplier when no movement flag is held).
(`src/main.js` resets on landing when NO movement flag is held instead of
`isRunning && (!forward || !backward || !left || !right)`.) -/
def tickVertical (playerOBB : Option OBB) (collisionOBBs : List OBB)
    (forward backward left right isRunning : Bool) (delta : ℚ) (s : PState) : PState :=
  let vv1 := s.verticalVelocity + gravity * delta
  let nextPos := tickNextPos delta s
  let s1 :=
    if vv1 > 0 then
      let upCheck := checkVerticalCollisionOBB playerOBB collisionOBBs nextPos true
      if upCheck.1 then
        { s with pos := ⟨s.pos.x, upCheck.2 - playerHeight - 1 / 10, s.pos.z⟩
                 verticalVelocity := 0 }
      else { s with pos := nextPos, verticalVelocity := vv1 }
    else
      let downCheck := checkVerticalCollisionOBB playerOBB collisionOBBs nextPos false
      if downCheck.1 then
        { s with pos := ⟨s.pos.x, downCheck.2, s.pos.z⟩
                 verticalVelocity := 0
                 canJump := true
                 bunnyHopMultiplier :=
                   if isRunning && (!forward || !backward || !left || !right) then 1
                   else s.bunnyHopMultiplier }
      else { s with pos := nextPos, verticalVelocity := vv1 }
  let currentGround := groundHeight
  if s1.pos.y ≤ currentGround then
    { s1 with pos := ⟨s1.pos.x, currentGround, s1.pos.z⟩
              verticalVelocity := 0
              canJump := true
              bunnyHopMultiplier :=
                if !forward && !backward && !left && !right then 1
                else s1.bunnyHopMultiplier }
  else s1

/-! ## Camera shake around the render call
(src/unnamed/part_000 lines 1550–1564) -/

/-- The shake hand-off around `renderer.render`: in first-person mode a
nonzero shake offset is added to the camera position before rendering and
subtracted again right after; the returned position is what the next
tick's movement resolution reads.  Rendering itself does not write the
camera position. -/
def applyShakeRenderRemove (isFps : Bool) (pos shakeOffset : Vec3) : Vec3 :=
  let rendered := if isFps && decide (shakeOffset.lengthSq > 0)
    then pos.add shakeOffset else pos
  if isFps && decide (shakeOffset.lengthSq > 0)
    then rendered.sub shakeOffset else rendered

/-! ## Bunny-hop multiplier updates -/

/-- The code sites that write `bunnyHopMultiplier`, one constructor per
site: `jumpBoost` is the successful-jump branch of the `Space` handler /
jump button / jump-on-hold (`min(bunnyHopMultiplier * 1.1, maxBunnyHop)`
when running); `landReset` is the down-collision branch of the tick
(part_000/SHD variant condition); `groundClampReset` is the fallback
ground clamp; `flyImpulse` (the Alt key) writes only `verticalVelocity`
and `canJump`. -/
inductive BunnyEvent where
  | jumpBoost (isRunning : Bool)
  | landReset (isRunning forward backward left right : Bool)
  | groundClampReset (forward backward left right : Bool)
  | flyImpulse
  deriving DecidableEq, Repr

/-- The effect of one `BunnyEvent` on `bunnyHopMultiplier`, read off the
corresponding source site. -/
def stepBunny (m : ℚ) : BunnyEvent → ℚ
  | .jumpBoost isRunning =>
    if isRunning then min (m * (11 / 10)) maxBunnyHop else m
  | .landReset isRunning forward backward left right =>
    if isRunning && (!forward || !backward || !left || !right) then 1 else m
  | .groundClampReset forward backward left right =>
    if !forward && !backward && !left && !right then 1 else m
  | .flyImpulse => m

/-- `bunnyHopMultiplier` after a sequence of events, starting from its
initial value `1`. -/
def bunnyAfter (events : List BunnyEvent) : ℚ :=
  events.foldl stepBunny 1

/-! ## Collider classification (src/unnamed/part_000 lines 1227–1274) -/

/-- The facts about a scene mesh consulted by the three-tier collider
classification: the name tests of tiers 1 and 2, the geometry/material
presence test of tier 3, and the material transparency facts feeding the
computed-but-unused `isTransparent`. -/
structure SceneMesh where
  nameHasColliderTag : Bool
  nameHasKeyword : Bool
  hasGeometry : Bool
  hasMaterial : Bool
  materialTransparent : Bool
  materialOpacityLtOne : Bool
  materialMapRGBA : Bool
  deriving DecidableEq, Repr

/-- The `isTransparent` value computed in the tier-3 branch:
`material.transparent || material.opacity < 1 || (map && map.format === RGBAFormat)`. -/
def isTransparent (m : SceneMesh) : Bool :=
  m.materialTransparent || m.materialOpacityLtOne || m.materialMapRGBA

/-- The literal gate guarding the tier-3 registration in the source:
`if (true) { ... shouldAddToCollision = true; ... }`. -/
def tierThreeGate : Bool := true

/-- `shouldAddToCollision` as computed by the load callback: tier 1
(`"COLLIDER"` in the name), else tier 2 (keyword in the lowercased name),
else tier 3 (has geometry and material, registration guarded by the
literal `if (true)` — the computed `isTransparent` is never consulted). -/
def shouldAddToCollision (m : SceneMesh) : Bool :=
  if m.nameHasColliderTag then true
  else if m.nameHasKeyword then true
  else if m.hasGeometry && m.hasMaterial then
    (if tierThreeGate then true else false)
  else false


/-! ## Player body initialization (src/unnamed/part_000 lines 293–305) -/

/-- `initializePlayerOBB()`: extents `(playerRadius, playerHeight/2,
playerRadius)`, center at feet (`cameraPos.y - cameraEyeHeight`) plus half
the player height, identity rotation. -/
def initializePlayerOBB (cameraPos : Vec3) : OBB :=
  { center := ⟨cameraPos.x, (cameraPos.y - cameraEyeHeight) + playerHeight / 2, cameraPos.z⟩
    extents := ⟨playerRadius, playerHeight / 2, playerRadius⟩
    axes := identAxes }

/-! ## Spec-side description of the sliding fallback order -/

/-- Modelled from the spec's description of the fallback order of
`getValidMovementOBB`: the candidate positions, in the order X-only
displacement, Z-only displacement, then for each factor in
`{0.8, 0.6, 0.4, 0.2}` the full scaled displacement followed by X-only
and Z-only at that scale.  This is the claim-side definition to be
compared with `getValidMovementOBB` above. -/
def slideCandidates (currentPos desiredPos : Vec3) : List Vec3 :=
  let deltaX := desiredPos.x - currentPos.x
  let deltaZ := desiredPos.z - currentPos.z
  [⟨currentPos.x + deltaX, currentPos.y, currentPos.z⟩,
   ⟨currentPos.x, currentPos.y, currentPos.z + deltaZ⟩] ++
    ([8 / 10, 6 / 10, 4 / 10, 2 / 10] : List ℚ).flatMap fun factor =>
      [⟨currentPos.x + deltaX * factor, currentPos.y, currentPos.z + deltaZ * factor⟩,
       ⟨currentPos.x + deltaX * factor, currentPos.y, currentPos.z⟩,
       ⟨currentPos.x, currentPos.y, currentPos.z + deltaZ * factor⟩]

/-! ## Concrete scenario data for witnesses and counterexamples -/

/-- A unit-extent axis-aligned box at the origin. -/
def unitBoxOrigin : OBB := ⟨⟨0, 0, 0⟩, ⟨1, 1, 1⟩, identAxes⟩

/-- A unit-extent axis-aligned box exactly face-touching
`unitBoxOrigin` at `x = 1`. -/
def unitBoxTouching : OBB := ⟨⟨2, 0, 0⟩, ⟨1, 1, 1⟩, identAxes⟩

/-- A unit-extent axis-aligned box well separated from `unitBoxOrigin`. -/
def unitBoxFar : OBB := ⟨⟨5, 0, 0⟩, ⟨1, 1, 1⟩, identAxes⟩

/-- A player body as initialized with the camera at `(10, 2, 10)`. -/
def samplePlayer : OBB := initializePlayerOBB ⟨10, 2, 10⟩

/-- A broad floor slab whose top surface is at `y = 4`. -/
def floorSlabLow : OBB := ⟨⟨0, 7 / 2, 0⟩, ⟨10, 1 / 2, 10⟩, identAxes⟩

/-- A thin floor plate whose top surface is at `y = 4.05`, overlapping
`floorSlabLow` in plan view. -/
def floorPlateHigh : OBB := ⟨⟨0, 79 / 20, 0⟩, ⟨1, 1 / 10, 1⟩, identAxes⟩

/-- A broad floor slab whose top surface is at `y = 5` (the spec's
vertical-clamp scenario). -/
def floorSlabFive : OBB := ⟨⟨0, 9 / 2, 0⟩, ⟨50, 1 / 2, 50⟩, identAxes⟩

/-- A wall slab occupying `z ∈ [3, 7]` across all relevant `x`. -/
def wallAhead : OBB := ⟨⟨0, 0, 5⟩, ⟨10, 10, 2⟩, identAxes⟩

/-- A falling simulation state: camera at `(0, 5.53, 0)`, vertical
velocity `0`, not grounded, bunny-hop multiplier `2`. -/
def fallingState : PState := ⟨⟨0, 553 / 100, 0⟩, 0, false, 2⟩

/-- A falling simulation state above the `y = 5` floor: camera at
`(0, 6.53, 0)`, vertical velocity `0`, not grounded, multiplier `1`. -/
def fallingStateFive : PState := ⟨⟨0, 653 / 100, 0⟩, 0, false, 1⟩

/-- A tier-3 scene mesh (no collider tag, no keyword name, has geometry
and material) whose material has the `transparent` flag set. -/
def transparentMesh : SceneMesh :=
  { nameHasColliderTag := false
    nameHasKeyword := false
    hasGeometry := true
    hasMaterial := true
    materialTransparent := true
    materialOpacityLtOne := false
    materialMapRGBA := false }

/-! # General lemmas -/

theorem Vec3.dot_comm (a b : Vec3) : Vec3.dot a b = Vec3.dot b a := by
  simp only [Vec3.dot]; ring

theorem Vec3.dot_neg_right (a b : Vec3) : Vec3.dot a (Vec3.neg b) = -Vec3.dot a b := by
  simp only [Vec3.dot, Vec3.neg]; ring

theorem Vec3.sub_eq_neg_sub (a b : Vec3) : Vec3.sub a b = Vec3.neg (Vec3.sub b a) := by
  simp only [Vec3.sub, Vec3.neg]; ext <;> ring

theorem Vec3.cross_antisymm (a b : Vec3) : Vec3.cross a b = Vec3.neg (Vec3.cross b a) := by
  simp only [Vec3.cross, Vec3.neg]; ext <;> ring

theorem Vec3.lengthSq_neg (a : Vec3) : Vec3.lengthSq (Vec3.neg a) = Vec3.lengthSq a := by
  simp only [Vec3.lengthSq, Vec3.neg]; ring

theorem Vec3.dot_smul_right (q : ℚ) (a b : Vec3) : Vec3.dot a (Vec3.smul q b) = q * Vec3.dot a b := by
  simp only [Vec3.dot, Vec3.smul]; ring


/-- The separating-axis test is invariant under scaling the axis by a
positive factor; this justifies omitting the source's
`crossAxis.normalize()` (a division by the positive length) from the
embedding. -/
theorem testSeparatingAxis_smul (a other : OBB) (axis separation : Vec3)
    (q : ℚ) (hq : 0 < q) :
    OBB.testSeparatingAxis a other (Vec3.smul q axis) separation =
      OBB.testSeparatingAxis a other axis separation := by
  have hrad : ∀ b : OBB, b.getProjectedRadius (Vec3.smul q axis) =
      q * b.getProjectedRadius axis := by
    intro b
    simp only [OBB.getProjectedRadius, Vec3.dot_smul_right, abs_mul,
      abs_of_pos hq]
    ring
  simp only [OBB.testSeparatingAxis, Vec3.dot_smul_right, abs_mul,
    abs_of_pos hq, hrad]
  rw [decide_eq_decide]
  rw [← mul_add]
  exact mul_le_mul_left hq

theorem identAxes_zero : identAxes 0 = ⟨1, 0, 0⟩ := rfl

theorem identAxes_one : identAxes 1 = ⟨0, 1, 0⟩ := rfl

theorem identAxes_two : identAxes 2 = ⟨0, 0, 1⟩ := rfl

theorem finRange_three : List.finRange 3 = [0, 1, 2] := rfl

/-- The proposition decided by `testSeparatingAxis` for the separation
vector of `intersectsOBB a b`: the axis does not separate the boxes. -/
def axisNotSeparating (a b : OBB) (axis : Vec3) : Prop :=
  |Vec3.dot (Vec3.sub b.center a.center) axis| ≤
    a.getProjectedRadius axis + b.getProjectedRadius axis

theorem intersectsOBB_eq_true_iff (a b : OBB) :
    a.intersectsOBB b = true ↔ ∀ axis ∈ OBB.candidateAxes a b, axisNotSeparating a b axis := by
  simp only [OBB.intersectsOBB, OBB.testSeparatingAxis, axisNotSeparating,
    List.all_eq_true, decide_eq_true_eq]

theorem axisNotSeparating_neg (a b : OBB) (axis : Vec3) :
    axisNotSeparating a b (Vec3.neg axis) ↔ axisNotSeparating a b axis := by
  have habs : ∀ v : Vec3, |Vec3.dot v (Vec3.neg axis)| = |Vec3.dot v axis| := by
    intro v; rw [Vec3.dot_neg_right, abs_neg]
  have hrad : ∀ c : OBB, c.getProjectedRadius (Vec3.neg axis) = c.getProjectedRadius axis := by
    intro c; simp only [OBB.getProjectedRadius, habs]
  simp only [axisNotSeparating, habs, hrad]

theorem axisNotSeparating_swap (a b : OBB) (axis : Vec3) :
    axisNotSeparating b a axis ↔ axisNotSeparating a b axis := by
  have : Vec3.dot (Vec3.sub a.center b.center) axis =
      -Vec3.dot (Vec3.sub b.center a.center) axis := by
    simp only [Vec3.dot, Vec3.sub]; ring
  simp only [axisNotSeparating, this, abs_neg]
  constructor <;> intro h <;> linarith

theorem mem_crossCandidates {a b : OBB} {axis : Vec3} :
    axis ∈ OBB.crossCandidates a b ↔
      ∃ i j : Fin 3, (Vec3.cross (a.axes i) (b.axes j)).lengthSq > 1 / 10000 ∧
        axis = Vec3.cross (a.axes i) (b.axes j) := by
  simp only [OBB.crossCandidates, List.mem_flatMap, List.mem_filterMap, List.mem_finRange,
    true_and]
  constructor
  · rintro ⟨i, j, hj⟩
    refine ⟨i, j, ?_⟩
    by_cases hc : (Vec3.cross (a.axes i) (b.axes j)).lengthSq > 1 / 10000
    · rw [if_pos hc] at hj
      exact ⟨hc, (Option.some_inj.mp hj).symm⟩
    · rw [if_neg hc] at hj
      exact absurd hj (Option.noConfusion)
  · rintro ⟨i, j, hc, rfl⟩
    exact ⟨i, j, by rw [if_pos hc]⟩

theorem mem_candidateAxes {a b : OBB} {axis : Vec3} :
    axis ∈ OBB.candidateAxes a b ↔
      (∃ i : Fin 3, axis = a.axes i) ∨ (∃ i : Fin 3, axis = b.axes i) ∨
        axis ∈ OBB.crossCandidates a b := by
  simp only [OBB.candidateAxes, List.mem_append, List.mem_cons, List.not_mem_nil, or_false]
  constructor
  · rintro (h | h)
    · rcases h with h | h | h | h | h | h
      · exact Or.inl ⟨0, h⟩
      · exact Or.inl ⟨1, h⟩
      · exact Or.inl ⟨2, h⟩
      · exact Or.inr (Or.inl ⟨0, h⟩)
      · exact Or.inr (Or.inl ⟨1, h⟩)
      · exact Or.inr (Or.inl ⟨2, h⟩)
    · exact Or.inr (Or.inr h)
  · rintro (⟨i, rfl⟩ | ⟨i, rfl⟩ | h)
    · fin_cases i
      · exact Or.inl (Or.inl rfl)
      · exact Or.inl (Or.inr (Or.inl rfl))
      · exact Or.inl (Or.inr (Or.inr (Or.inl rfl)))
    · fin_cases i
      · exact Or.inl (Or.inr (Or.inr (Or.inr (Or.inl rfl))))
      · exact Or.inl (Or.inr (Or.inr (Or.inr (Or.inr (Or.inl rfl)))))
      · exact Or.inl (Or.inr (Or.inr (Or.inr (Or.inr (Or.inr rfl)))))
    · exact Or.inr h

/-- One direction of SAT symmetry at the level of the candidate sets:
if every candidate axis of `(a, b)` reports overlap, so does every
candidate axis of `(b, a)`. -/
theorem candidate_overlap_swap (a b : OBB)
    (h : ∀ axis ∈ OBB.candidateAxes a b, axisNotSeparating a b axis) :
    ∀ axis ∈ OBB.candidateAxes b a, axisNotSeparating b a axis := by
  intro axis hmem
  rcases mem_candidateAxes.mp hmem with ⟨i, rfl⟩ | ⟨i, rfl⟩ | hcross
  · exact (axisNotSeparating_swap a b _).mpr
      (h _ (mem_candidateAxes.mpr (Or.inr (Or.inl ⟨i, rfl⟩))))
  · exact (axisNotSeparating_swap a b _).mpr
      (h _ (mem_candidateAxes.mpr (Or.inl ⟨i, rfl⟩)))
  · rcases mem_crossCandidates.mp hcross with ⟨i, j, hlen, rfl⟩
    have hneg : Vec3.cross (b.axes i) (a.axes j) =
        Vec3.neg (Vec3.cross (a.axes j) (b.axes i)) := Vec3.cross_antisymm _ _
    have hlen' : (Vec3.cross (a.axes j) (b.axes i)).lengthSq > 1 / 10000 := by
      rw [hneg, Vec3.lengthSq_neg] at hlen
      exact hlen
    have hmem' : Vec3.cross (a.axes j) (b.axes i) ∈ OBB.candidateAxes a b :=
      mem_candidateAxes.mpr (Or.inr (Or.inr (mem_crossCandidates.mpr ⟨j, i, hlen', rfl⟩)))
    have hab := h _ hmem'
    rw [hneg]
    exact (axisNotSeparating_neg b a _).mpr ((axisNotSeparating_swap a b _).mpr hab)

/-! # Claim theorems -/

/-- Claim C5: SAT symmetry — for every pair of OBBs `A` and `B`,
`A.intersectsOBB(B)` equals `B.intersectsOBB(A)`, even though the
candidate axis sets are constructed in different orders for the two
calls. -/
theorem intersectsOBB_symm : ∀ a b : OBB, a.intersectsOBB b = b.intersectsOBB a := by
  intro a b
  cases hab : a.intersectsOBB b with
  | true =>
    exact ((intersectsOBB_eq_true_iff b a).mpr
      (candidate_overlap_swap a b ((intersectsOBB_eq_true_iff a b).mp hab))).symm
  | false =>
    cases hba : b.intersectsOBB a with
    | false => rfl
    | true =>
      exact absurd ((intersectsOBB_eq_true_iff a b).mpr
        (candidate_overlap_swap b a ((intersectsOBB_eq_true_iff b a).mp hba)))
        (by simp [hab])

/-- Claim C10: closed contact convention — the per-axis separation test
accepts separation equal to the summed projected radii (`<=`, so exact
touching does not separate); `intersectsOBB` returns `false` only when
some candidate axis has projected separation strictly greater than the
summed radii; and two face-touching unit boxes are reported as
intersecting. -/
theorem intersectsOBB_closed_contact :
    (∀ (a b : OBB) (axis separation : Vec3),
      OBB.testSeparatingAxis a b axis separation = true ↔
        |Vec3.dot separation axis| ≤
          a.getProjectedRadius axis + b.getProjectedRadius axis) ∧
    (∀ a b : OBB, a.intersectsOBB b = false ↔
      ∃ axis ∈ OBB.candidateAxes a b,
        a.getProjectedRadius axis + b.getProjectedRadius axis <
          |Vec3.dot (Vec3.sub b.center a.center) axis|) ∧
    unitBoxOrigin.intersectsOBB unitBoxTouching = true := by
  refine ⟨?_, ?_, ?_⟩
  · intro a b axis separation
    simp [OBB.testSeparatingAxis]
  · intro a b
    rw [← Bool.not_eq_true, intersectsOBB_eq_true_iff]
    push_neg
    simp only [axisNotSeparating, not_le]
  · norm_num [OBB.intersectsOBB, OBB.candidateAxes, OBB.crossCandidates,
      OBB.testSeparatingAxis, OBB.getProjectedRadius, Vec3.dot, Vec3.cross,
      Vec3.sub, Vec3.lengthSq, finRange_three, identAxes_zero, identAxes_one,
      identAxes_two, unitBoxOrigin, unitBoxTouching, abs_eq_max_neg, max_def]

/-- Claim C8: uninitialized-body fallback — before the player OBB is
initialized, `checkHorizontalCollisionOBB` returns `false` and
`checkVerticalCollisionOBB` returns no collision with the queried height
unchanged, for every query position, registry and probe direction. -/
theorem collision_probes_uninitialized_fallback :
    ∀ (collisionOBBs : List OBB) (position : Vec3) (up : Bool),
      checkHorizontalCollisionOBB none collisionOBBs position = false ∧
        checkVerticalCollisionOBB none collisionOBBs position up = (false, position.y) :=
  fun _ _ _ => ⟨rfl, rfl⟩

/-- Every position returned by the reduction-factor loop was vetted
collision-free. -/
theorem tryReductionFactors_sound (playerOBB : Option OBB) (collisionOBBs : List OBB)
    (currentPos : Vec3) (deltaX deltaZ : ℚ) :
    ∀ (factors : List ℚ) (p : Vec3),
      tryReductionFactors playerOBB collisionOBBs currentPos deltaX deltaZ factors = some p →
        checkHorizontalCollisionOBB playerOBB collisionOBBs p = false := by
  intro factors
  induction factors with
  | nil => intro p h; simp [tryReductionFactors] at h
  | cons f rest ih =>
    intro p h
    simp only [tryReductionFactors] at h
    split_ifs at h with h1 h2 h3
    · rw [Option.some_inj] at h; subst h; simpa using h1
    · rw [Option.some_inj] at h; subst h; simpa using h2
    · rw [Option.some_inj] at h; subst h; simpa using h3
    · exact ih p h

/-- `getValidMovementOBB` either returns a position it has vetted
collision-free, or returns `currentPos` unchanged. -/
theorem getValidMovementOBB_cases (playerOBB : Option OBB) (collisionOBBs : List OBB)
    (currentPos desiredPos : Vec3) :
    checkHorizontalCollisionOBB playerOBB collisionOBBs
        (getValidMovementOBB playerOBB collisionOBBs currentPos desiredPos) = false ∨
      getValidMovementOBB playerOBB collisionOBBs currentPos desiredPos = currentPos := by
  simp only [getValidMovementOBB]
  split_ifs with h1 h2 h3
  · left; simpa using h1
  · left; simpa using h2
  · left; simpa using h3
  · rcases htf : tryReductionFactors playerOBB collisionOBBs currentPos
        (desiredPos.x - currentPos.x) (desiredPos.z - currentPos.z)
        [8 / 10, 6 / 10, 4 / 10, 2 / 10] with _ | p
    · right; rfl
    · left
      exact tryReductionFactors_sound playerOBB collisionOBBs currentPos _ _ _ p htf

/-- Claim C1: no tunneling through a closed volume — for every static
collision OBB in the registry and every tick whose desired horizontal
displacement is smaller than that OBB's smallest extent, if the player's
test OBB at the current position does not intersect the static OBB, then
the position resolved by `getValidMovementOBB` has a test OBB that also
does not intersect that static OBB.  (The displacement bound is part of
the claim; the vet-or-freeze structure of the resolver makes the
conclusion hold for any displacement.) -/
theorem getValidMovementOBB_no_tunneling (p obstacle : OBB) (collisionOBBs : List OBB)
    (currentPos desiredPos : Vec3)
    (hmem : obstacle ∈ collisionOBBs)
    (_hstep : (desiredPos.x - currentPos.x) ^ 2 + (desiredPos.z - currentPos.z) ^ 2 <
      obstacle.smallestExtent ^ 2)
    (hcur : (horizTestOBB p.extents currentPos).intersectsOBB obstacle = false) :
    (horizTestOBB p.extents
        (getValidMovementOBB (some p) collisionOBBs currentPos desiredPos)).intersectsOBB
      obstacle = false := by
  rcases getValidMovementOBB_cases (some p) collisionOBBs currentPos desiredPos with h | h
  · simp only [checkHorizontalCollisionOBB, List.any_eq_false] at h
    simpa using h obstacle hmem
  · rw [h]; exact hcur

/-- Witness for claim C1: a player far from a unit obstacle takes a small
step; the resolved test OBB stays disjoint from the obstacle. -/
theorem getValidMovementOBB_no_tunneling_witness :
    (horizTestOBB samplePlayer.extents
        (getValidMovementOBB (some samplePlayer) [unitBoxOrigin] ⟨10, 2, 10⟩
          ⟨101 / 10, 2, 10⟩)).intersectsOBB unitBoxOrigin = false :=
  getValidMovementOBB_no_tunneling samplePlayer unitBoxOrigin [unitBoxOrigin]
    ⟨10, 2, 10⟩ ⟨101 / 10, 2, 10⟩
    (List.mem_singleton.mpr rfl)
    (by norm_num [OBB.smallestExtent, unitBoxOrigin])
    (by norm_num [horizTestOBB, samplePlayer, initializePlayerOBB, OBB.intersectsOBB,
      OBB.candidateAxes, OBB.crossCandidates, OBB.testSeparatingAxis,
      OBB.getProjectedRadius, Vec3.dot, Vec3.cross, Vec3.sub, Vec3.lengthSq,
      finRange_three, identAxes_zero, identAxes_one, identAxes_two, unitBoxOrigin,
      playerHeight, cameraEyeHeight, playerRadius, abs_eq_max_neg, max_def])

/-- The reduction-factor loop returns the first collision-free candidate
among, per factor, the scaled full displacement then X-only then Z-only. -/
theorem tryReductionFactors_eq_find? (playerOBB : Option OBB) (collisionOBBs : List OBB)
    (currentPos : Vec3) (deltaX deltaZ : ℚ) :
    ∀ factors : List ℚ,
      tryReductionFactors playerOBB collisionOBBs currentPos deltaX deltaZ factors =
        (factors.flatMap fun factor =>
            ([⟨currentPos.x + deltaX * factor, currentPos.y, currentPos.z + deltaZ * factor⟩,
              ⟨currentPos.x + deltaX * factor, currentPos.y, currentPos.z⟩,
              ⟨currentPos.x, currentPos.y, currentPos.z + deltaZ * factor⟩] : List Vec3)).find?
          fun c => !checkHorizontalCollisionOBB playerOBB collisionOBBs c := by
  intro factors
  induction factors with
  | nil => simp [tryReductionFactors]
  | cons f rest ih =>
    simp only [tryReductionFactors, List.flatMap_cons, List.cons_append, List.nil_append]
    cases h1 : checkHorizontalCollisionOBB playerOBB collisionOBBs
        ⟨currentPos.x + deltaX * f, currentPos.y, currentPos.z + deltaZ * f⟩ <;>
      cases h2 : checkHorizontalCollisionOBB playerOBB collisionOBBs
          ⟨currentPos.x + deltaX * f, currentPos.y, currentPos.z⟩ <;>
        cases h3 : checkHorizontalCollisionOBB playerOBB collisionOBBs
            ⟨currentPos.x, currentPos.y, currentPos.z + deltaZ * f⟩ <;>
          simp [List.find?, h1, h2, h3, ih]

theorem optionMatchVec3_eq_getD (o : Option Vec3) (c : Vec3) :
    (match o with | some p => p | none => c) = o.getD c := by
  cases o <;> rfl

theorem find?_cons_pos' {α : Type} (p : α → Bool) (a : α) (l : List α)
    (h : p a = true) : List.find? p (a :: l) = some a :=
  List.find?_cons_of_pos l h

theorem find?_cons_neg' {α : Type} (p : α → Bool) (a : α) (l : List α)
    (h : p a = false) : List.find? p (a :: l) = List.find? p l :=
  List.find?_cons_of_neg l (by simp [h])

/-- Claim C4: sliding-resolution fallback order — when the desired
position collides, `getValidMovementOBB` returns the first collision-free
candidate of `slideCandidates` (X-only displacement, Z-only displacement,
then for each factor in `{0.8, 0.6, 0.4, 0.2}` the full scaled
displacement followed by X-only and Z-only at that scale); when every
candidate collides it returns the current position unchanged. -/
theorem getValidMovementOBB_fallback_order (playerOBB : Option OBB)
    (collisionOBBs : List OBB) (currentPos desiredPos : Vec3)
    (hdes : checkHorizontalCollisionOBB playerOBB collisionOBBs desiredPos = true) :
    getValidMovementOBB playerOBB collisionOBBs currentPos desiredPos =
      ((slideCandidates currentPos desiredPos).find?
          (fun c => !checkHorizontalCollisionOBB playerOBB collisionOBBs c)).getD
        currentPos := by
  have hd : ¬ ((!checkHorizontalCollisionOBB playerOBB collisionOBBs desiredPos) = true) := by
    rw [hdes]; simp
  simp only [getValidMovementOBB, slideCandidates, List.cons_append, List.nil_append]
  rw [if_neg hd]
  cases h1 : checkHorizontalCollisionOBB playerOBB collisionOBBs
      ⟨currentPos.x + (desiredPos.x - currentPos.x), currentPos.y, currentPos.z⟩ with
  | false =>
    rw [if_pos (show ((!false) = true) from rfl),
      find?_cons_pos' (fun c => !checkHorizontalCollisionOBB playerOBB collisionOBBs c) _ _
        (by simp only [h1]; rfl),
      Option.getD_some]
  | true =>
    rw [if_neg (show ¬ ((!true) = true) from by simp),
      find?_cons_neg' (fun c => !checkHorizontalCollisionOBB playerOBB collisionOBBs c) _ _
        (by simp only [h1]; rfl)]
    cases h2 : checkHorizontalCollisionOBB playerOBB collisionOBBs
        ⟨currentPos.x, currentPos.y, currentPos.z + (desiredPos.z - currentPos.z)⟩ with
    | false =>
      rw [if_pos (show ((!false) = true) from rfl),
        find?_cons_pos' (fun c => !checkHorizontalCollisionOBB playerOBB collisionOBBs c) _ _
          (by simp only [h2]; rfl),
        Option.getD_some]
    | true =>
      rw [if_neg (show ¬ ((!true) = true) from by simp),
        find?_cons_neg' (fun c => !checkHorizontalCollisionOBB playerOBB collisionOBBs c) _ _
          (by simp only [h2]; rfl),
        tryReductionFactors_eq_find?]
      exact optionMatchVec3_eq_getD _ _

set_option maxHeartbeats 1000000 in
/-- Witness for claim C4: walking into a wall ahead, the desired position
collides and the resolver agrees with the first-clear-candidate
characterization (here the X-only slide). -/
theorem getValidMovementOBB_fallback_order_witness :
    checkHorizontalCollisionOBB (some samplePlayer) [wallAhead] ⟨3 / 10, 2, 4⟩ = true ∧
      getValidMovementOBB (some samplePlayer) [wallAhead] ⟨0, 2, 0⟩ ⟨3 / 10, 2, 4⟩ =
        ((slideCandidates ⟨0, 2, 0⟩ ⟨3 / 10, 2, 4⟩).find?
            (fun c => !checkHorizontalCollisionOBB (some samplePlayer) [wallAhead] c)).getD
          ⟨0, 2, 0⟩ :=
  ⟨by norm_num [checkHorizontalCollisionOBB, horizTestOBB, samplePlayer,
      initializePlayerOBB, OBB.intersectsOBB, OBB.candidateAxes, OBB.crossCandidates,
      OBB.testSeparatingAxis, OBB.getProjectedRadius, Vec3.dot, Vec3.cross, Vec3.sub,
      Vec3.lengthSq, finRange_three, identAxes_zero, identAxes_one, identAxes_two,
      wallAhead, playerHeight, cameraEyeHeight, playerRadius, abs_eq_max_neg, max_def],
    getValidMovementOBB_fallback_order (some samplePlayer) [wallAhead] ⟨0, 2, 0⟩
      ⟨3 / 10, 2, 4⟩
      (by norm_num [checkHorizontalCollisionOBB, horizTestOBB, samplePlayer,
        initializePlayerOBB, OBB.intersectsOBB, OBB.candidateAxes, OBB.crossCandidates,
        OBB.testSeparatingAxis, OBB.getProjectedRadius, Vec3.dot, Vec3.cross, Vec3.sub,
        Vec3.lengthSq, finRange_three, identAxes_zero, identAxes_one, identAxes_two,
        wallAhead, playerHeight, cameraEyeHeight, playerRadius, abs_eq_max_neg, max_def])⟩

/-- Claim C3: shake non-leakage — the shake offset added to the camera
position before rendering is removed in full after rendering, so the
position the next tick's movement resolution reads equals the position
produced by this tick's physics resolution, for any nonzero shake offset
(and in fact for any offset at all). -/
theorem applyShakeRenderRemove_id (isFps : Bool) (pos shakeOffset : Vec3)
    (_hmag : 0 < shakeOffset.lengthSq) :
    applyShakeRenderRemove isFps pos shakeOffset = pos := by
  unfold applyShakeRenderRemove
  split_ifs with h
  · ext <;> simp [Vec3.add, Vec3.sub]
  · rfl

/-- Witness for claim C3: a concrete nonzero shake offset in first-person
mode leaves the camera position unchanged across the render. -/
theorem applyShakeRenderRemove_id_witness :
    0 < (Vec3.lengthSq ⟨1 / 10, 1 / 5, 0⟩) ∧
      applyShakeRenderRemove true ⟨1, 2, 3⟩ ⟨1 / 10, 1 / 5, 0⟩ = ⟨1, 2, 3⟩ :=
  ⟨by norm_num [Vec3.lengthSq],
    applyShakeRenderRemove_id true ⟨1, 2, 3⟩ ⟨1 / 10, 1 / 5, 0⟩ (by norm_num [Vec3.lengthSq])⟩

/-- A single bunny-hop event keeps the multiplier within
`[1, maxBunnyHop]`. -/
theorem stepBunny_bounds (m : ℚ) (e : BunnyEvent) (h1 : 1 ≤ m) (h2 : m ≤ maxBunnyHop) :
    1 ≤ stepBunny m e ∧ stepBunny m e ≤ maxBunnyHop := by
  have hmax : (1 : ℚ) ≤ maxBunnyHop := by norm_num [maxBunnyHop]
  cases e with
  | jumpBoost isRunning =>
    simp only [stepBunny]
    split_ifs
    · constructor
      · exact le_min (by linarith) hmax
      · exact min_le_right _ _
    · exact ⟨h1, h2⟩
  | landReset isRunning forward backward left right =>
    simp only [stepBunny]
    split_ifs
    · exact ⟨le_refl 1, hmax⟩
    · exact ⟨h1, h2⟩
  | groundClampReset forward backward left right =>
    simp only [stepBunny]
    split_ifs
    · exact ⟨le_refl 1, hmax⟩
    · exact ⟨h1, h2⟩
  | flyImpulse => exact ⟨h1, h2⟩

/-- The fold over any event sequence preserves the multiplier bounds. -/
theorem foldl_stepBunny_bounds :
    ∀ (events : List BunnyEvent) (m : ℚ), 1 ≤ m → m ≤ maxBunnyHop →
      1 ≤ events.foldl stepBunny m ∧ events.foldl stepBunny m ≤ maxBunnyHop := by
  intro events
  induction events with
  | nil => intro m h1 h2; exact ⟨h1, h2⟩
  | cons e rest ih =>
    intro m h1 h2
    have hb := stepBunny_bounds m e h1 h2
    exact ih (stepBunny m e) hb.1 hb.2

/-- Claim C6: bunny-hop multiplier bounds invariant — starting from its
initial value `1`, after any sequence of jump, landing, ground-clamp and
fly events `bunnyHopMultiplier` stays within `[1, maxBunnyHop]`; in
particular repeated running jumps never push it above the configured
maximum. -/
theorem bunnyHopMultiplier_bounds :
    ∀ events : List BunnyEvent, 1 ≤ bunnyAfter events ∧ bunnyAfter events ≤ maxBunnyHop :=
  fun events =>
    foldl_stepBunny_bounds events 1 le_rfl (by norm_num [maxBunnyHop])

/-- Step equation of the `'down'` scan: an intersecting head with an
untouched accumulator seeds it with the head's top surface. -/
theorem vertScanAux_down_cons_hit_none (testOBB o : OBB) (rest : List OBB)
    (h : testOBB.intersectsOBB o = true) :
    vertScanAux false testOBB (o :: rest) none =
      vertScanAux false testOBB rest (some (o.center.y + o.extents.y)) := by
  simp only [vertScanAux, h, Bool.false_eq_true, if_false, eq_self_iff_true, if_true]

/-- Step equation of the `'down'` scan: an intersecting head raises a
seeded accumulator to its top surface when that is higher. -/
theorem vertScanAux_down_cons_hit_some (testOBB o : OBB) (rest : List OBB) (c0 : ℚ)
    (h : testOBB.intersectsOBB o = true) :
    vertScanAux false testOBB (o :: rest) (some c0) =
      vertScanAux false testOBB rest
        (some (if o.center.y + o.extents.y > c0 then o.center.y + o.extents.y else c0)) := by
  simp only [vertScanAux, h, Bool.false_eq_true, if_false, eq_self_iff_true, if_true]

/-- Step equation of the `'down'` scan: a non-intersecting head leaves
the accumulator unchanged. -/
theorem vertScanAux_down_cons_miss (testOBB o : OBB) (rest : List OBB) (acc : Option ℚ)
    (h : testOBB.intersectsOBB o = false) :
    vertScanAux false testOBB (o :: rest) acc = vertScanAux false testOBB rest acc := by
  simp only [vertScanAux, h, Bool.false_eq_true, if_false]

/-- The `'down'` scan of `checkVerticalCollisionOBB` produces the maximal
top surface among the intersecting registry OBBs: if every intersecting
OBB has top at most `M`, some intersecting OBB (or the seed accumulator)
attains `M`, and the seed is at most `M`, the scan returns `some M`. -/
theorem vertScanAux_down_some (testOBB : OBB) (M : ℚ) :
    ∀ (obbs : List OBB) (acc : Option ℚ),
      (∀ O ∈ obbs, testOBB.intersectsOBB O = true → O.topY ≤ M) →
      ((∃ O ∈ obbs, testOBB.intersectsOBB O = true ∧ O.topY = M) ∨ acc = some M) →
      (∀ c, acc = some c → c ≤ M) →
      vertScanAux false testOBB obbs acc = some M := by
  intro obbs
  induction obbs with
  | nil =>
    intro acc _ hex _
    rcases hex with ⟨O, hO, _⟩ | h
    · exact absurd hO (List.not_mem_nil O)
    · simpa [vertScanAux] using h
  | cons o rest ih =>
    intro acc hub hex hle
    have hub' : ∀ O ∈ rest, testOBB.intersectsOBB O = true → O.topY ≤ M :=
      fun O hO hI => hub O (List.mem_cons_of_mem o hO) hI
    have hexrest : (∃ O ∈ o :: rest, testOBB.intersectsOBB O = true ∧ O.topY = M) →
        testOBB.intersectsOBB o = false →
        (∃ O ∈ rest, testOBB.intersectsOBB O = true ∧ O.topY = M) := by
      rintro ⟨O, hO, hI, hT⟩ hmiss
      rcases List.mem_cons.mp hO with rfl | hO'
      · rw [hmiss] at hI; exact absurd hI (by simp)
      · exact ⟨O, hO', hI, hT⟩
    by_cases hint : testOBB.intersectsOBB o = true
    · have htop : o.center.y + o.extents.y ≤ M :=
        hub o (List.mem_cons_self o rest) hint
      rcases acc with _ | c0
      · rw [vertScanAux_down_cons_hit_none testOBB o rest hint]
        refine ih _ hub' ?_ ?_
        · rcases hex with ⟨O, hO, hI, hT⟩ | h
          · rcases List.mem_cons.mp hO with rfl | hO'
            · exact Or.inr (by rw [show O.center.y + O.extents.y = M from hT])
            · exact Or.inl ⟨O, hO', hI, hT⟩
          · exact absurd h (by simp)
        · intro c hc
          rw [Option.some_inj] at hc
          exact hc ▸ htop
      · have hc0 : c0 ≤ M := hle c0 rfl
        rw [vertScanAux_down_cons_hit_some testOBB o rest c0 hint]
        have hmaxle : (if o.center.y + o.extents.y > c0 then o.center.y + o.extents.y
            else c0) ≤ M := by
          split_ifs
          · exact htop
          · exact hc0
        refine ih _ hub' ?_ ?_
        · rcases hex with ⟨O, hO, hI, hT⟩ | h
          · rcases List.mem_cons.mp hO with rfl | hO'
            · refine Or.inr ?_
              rw [Option.some_inj]
              have hTM : O.center.y + O.extents.y = M := hT
              rw [hTM]
              split_ifs
              · rfl
              · exact le_antisymm hc0 (by linarith [not_lt.mp (by assumption : ¬ M > c0)])
            · exact Or.inl ⟨O, hO', hI, hT⟩
          · rw [Option.some_inj] at h
            refine Or.inr ?_
            rw [Option.some_inj, h]
            rw [if_neg (not_lt.mpr (h ▸ htop))]
        · intro c hc
          rw [Option.some_inj] at hc
          exact hc ▸ hmaxle
    · have hmiss : testOBB.intersectsOBB o = false := by
        rcases hbool : testOBB.intersectsOBB o with _ | _
        · rfl
        · exact absurd hbool hint
      rw [vertScanAux_down_cons_miss testOBB o rest acc hmiss]
      refine ih acc hub' ?_ hle
      rcases hex with hwit | h
      · exact Or.inl (hexrest hwit hmiss)
      · exact Or.inr h

/-- With an initialized player body, the `'down'` probe resolves to the
highest top surface among the OBBs intersecting the thin foot volume,
plus the eye height and stand-off offset. -/
theorem checkVerticalCollisionOBB_down_eq (p : OBB) (collisionOBBs : List OBB)
    (cameraPos : Vec3) (O : OBB)
    (hmem : O ∈ collisionOBBs)
    (hhit : (vertTestOBB cameraPos false).intersectsOBB O = true)
    (hmax : ∀ O' ∈ collisionOBBs,
      (vertTestOBB cameraPos false).intersectsOBB O' = true → O'.topY ≤ O.topY) :
    checkVerticalCollisionOBB (some p) collisionOBBs cameraPos false =
      (true, O.topY + cameraEyeHeight + playerFeetOffset) := by
  simp only [checkVerticalCollisionOBB]
  rw [vertScanAux_down_some (vertTestOBB cameraPos false) O.topY collisionOBBs none
    hmax (Or.inl ⟨O, hmem, hhit, rfl⟩) (fun c hc => absurd hc (by simp))]
  simp

/-- Claim C2 (amended): vertical clamp correctness — when the falling
player's downward probe reports a collision, the resolved camera Y equals
the highest top surface among the intersecting floor OBBs plus the camera
eye height plus the stand-off (feet) offset — which is `F` of the given
floor OBB whenever that OBB's top is the highest one hit (in particular
when it is the only collider) — and `canJump` becomes true in the same
tick; the value must clear the fallback ground height, which otherwise
overrides it. -/
theorem verticalClamp_resolves_to_highest_floor (p O : OBB) (collisionOBBs : List OBB)
    (forward backward left right isRunning : Bool) (delta : ℚ) (s : PState)
    (hfall : s.verticalVelocity + gravity * delta ≤ 0)
    (hmem : O ∈ collisionOBBs)
    (hhit : (vertTestOBB (tickNextPos delta s) false).intersectsOBB O = true)
    (hmax : ∀ O' ∈ collisionOBBs,
      (vertTestOBB (tickNextPos delta s) false).intersectsOBB O' = true → O'.topY ≤ O.topY)
    (hground : groundHeight < O.topY + cameraEyeHeight + playerFeetOffset) :
    (tickVertical (some p) collisionOBBs forward backward left right isRunning
          delta s).pos.y = O.topY + cameraEyeHeight + playerFeetOffset ∧
      (tickVertical (some p) collisionOBBs forward backward left right isRunning
          delta s).canJump = true := by
  have hdown := checkVerticalCollisionOBB_down_eq p collisionOBBs
    (tickNextPos delta s) O hmem hhit hmax
  simp only [tickVertical]
  rw [if_neg (not_lt.mpr hfall), hdown]
  rw [if_pos (show ((true, O.topY + cameraEyeHeight + playerFeetOffset).1 = true) from rfl)]
  rw [if_neg (show ¬ ((⟨⟨s.pos.x, O.topY + cameraEyeHeight + playerFeetOffset, s.pos.z⟩,
    0, true, if isRunning && (!forward || !backward || !left || !right) then 1
      else s.bunnyHopMultiplier⟩ : PState).pos.y ≤ groundHeight) from not_le.mpr hground)]
  exact ⟨rfl, rfl⟩

set_option maxHeartbeats 1000000 in
/-- Counterexample for claim C2 as stated: with two overlapping floors
(tops `4` and `4.05`), the falling player's probe collides with the lower
floor, yet the resolved camera Y is `4.05 + eye + offset`, not
`4 + eye + offset`. -/
theorem verticalClamp_two_floor_counterexample :
    floorSlabLow ∈ [floorSlabLow, floorPlateHigh] ∧
      (vertTestOBB (tickNextPos (1 / 10) fallingState) false).intersectsOBB
          floorSlabLow = true ∧
      fallingState.verticalVelocity + gravity * (1 / 10) ≤ 0 ∧
      (tickVertical (some samplePlayer) [floorSlabLow, floorPlateHigh]
            false false false false false (1 / 10) fallingState).pos.y ≠
        OBB.topY floorSlabLow + cameraEyeHeight + playerFeetOffset := by
  refine ⟨by simp, ?_, ?_, ?_⟩
  · norm_num [vertTestOBB, tickNextPos, fallingState, OBB.intersectsOBB,
      OBB.candidateAxes, OBB.crossCandidates, OBB.testSeparatingAxis,
      OBB.getProjectedRadius, Vec3.dot, Vec3.cross, Vec3.sub, Vec3.lengthSq,
      finRange_three, identAxes_zero, identAxes_one, identAxes_two, floorSlabLow,
      gravity, playerHeight, cameraEyeHeight, playerRadius, abs_eq_max_neg, max_def]
  · norm_num [fallingState, gravity]
  · norm_num [tickVertical, tickNextPos, checkVerticalCollisionOBB, vertScanAux,
      vertTestOBB, OBB.intersectsOBB, OBB.candidateAxes, OBB.crossCandidates,
      OBB.testSeparatingAxis, OBB.getProjectedRadius, Vec3.dot, Vec3.cross, Vec3.sub,
      Vec3.lengthSq, finRange_three, identAxes_zero, identAxes_one, identAxes_two,
      floorSlabLow, floorPlateHigh, samplePlayer, initializePlayerOBB, fallingState,
      gravity, groundHeight, playerHeight, cameraEyeHeight, playerRadius,
      playerFeetOffset, OBB.topY, abs_eq_max_neg, max_def]

set_option maxHeartbeats 1000000 in
/-- Witness for claim C2 (amended): falling onto the sole floor with top
surface at `y = 5`, the tick resolves the camera to
`5 + cameraEyeHeight + playerFeetOffset` and grants `canJump`. -/
theorem verticalClamp_resolves_to_highest_floor_witness :
    (tickVertical (some samplePlayer) [floorSlabFive] false false false false false
          (1 / 10) fallingStateFive).pos.y =
        OBB.topY floorSlabFive + cameraEyeHeight + playerFeetOffset ∧
      (tickVertical (some samplePlayer) [floorSlabFive] false false false false false
          (1 / 10) fallingStateFive).canJump = true :=
  verticalClamp_resolves_to_highest_floor samplePlayer floorSlabFive [floorSlabFive]
    false false false false false (1 / 10) fallingStateFive
    (by norm_num [fallingStateFive, gravity])
    (List.mem_singleton.mpr rfl)
    (by norm_num [vertTestOBB, tickNextPos, fallingStateFive, OBB.intersectsOBB,
      OBB.candidateAxes, OBB.crossCandidates, OBB.testSeparatingAxis,
      OBB.getProjectedRadius, Vec3.dot, Vec3.cross, Vec3.sub, Vec3.lengthSq,
      finRange_three, identAxes_zero, identAxes_one, identAxes_two, floorSlabFive,
      gravity, playerHeight, cameraEyeHeight, playerRadius, abs_eq_max_neg, max_def])
    (by intro O' hO' _; rw [List.mem_singleton] at hO'; rw [hO'])
    (by norm_num [OBB.topY, floorSlabFive, groundHeight, cameraEyeHeight,
      playerFeetOffset])

/-- Claim C9 (amended): bunny-hop reset on landing — in this variant the
down-collision branch resets `bunnyHopMultiplier` to `1` whenever the
falling player's probe reports a floor collision, `isRunning` is true,
and not all four movement flags are held simultaneously; with
`isRunning` false the down-collision branch leaves the multiplier
unchanged (the `src/main.js` variant instead resets when no flag is
held). -/
theorem landing_reset_when_running (p : OBB) (collisionOBBs : List OBB)
    (forward backward left right : Bool) (delta : ℚ) (s : PState)
    (hfall : s.verticalVelocity + gravity * delta ≤ 0)
    (hdown : (checkVerticalCollisionOBB (some p) collisionOBBs
      (tickNextPos delta s) false).1 = true)
    (hflags : (forward && backward && left && right) = false) :
    (tickVertical (some p) collisionOBBs forward backward left right true
        delta s).bunnyHopMultiplier = 1 := by
  have hmv : (!forward || !backward || !left || !right) = true := by
    cases forward <;> cases backward <;> cases left <;> cases right <;> simp_all
  simp only [tickVertical]
  rw [if_neg (not_lt.mpr hfall), if_pos hdown]
  simp only [Bool.true_and, hmv, eq_self_iff_true, if_true]
  split_ifs <;> simp

/-- Counterexample for claim C9 as stated: a falling, non-running player
with no movement flag held lands on a floor (the probe reports a
collision), yet `bunnyHopMultiplier` stays at `2` instead of resetting
to `1`. -/
theorem landing_reset_not_running_counterexample :
    (checkVerticalCollisionOBB (some samplePlayer) [floorSlabLow]
          (tickNextPos (1 / 10) fallingState) false).1 = true ∧
      (tickVertical (some samplePlayer) [floorSlabLow] false false false false false
          (1 / 10) fallingState).bunnyHopMultiplier = 2 := by
  constructor
  · norm_num [checkVerticalCollisionOBB, vertScanAux, vertTestOBB, tickNextPos,
      fallingState, OBB.intersectsOBB, OBB.candidateAxes, OBB.crossCandidates,
      OBB.testSeparatingAxis, OBB.getProjectedRadius, Vec3.dot, Vec3.cross, Vec3.sub,
      Vec3.lengthSq, finRange_three, identAxes_zero, identAxes_one, identAxes_two,
      floorSlabLow, gravity, playerHeight, cameraEyeHeight, playerRadius,
      playerFeetOffset, abs_eq_max_neg, max_def]
  · norm_num [tickVertical, tickNextPos, checkVerticalCollisionOBB, vertScanAux,
      vertTestOBB, OBB.intersectsOBB, OBB.candidateAxes, OBB.crossCandidates,
      OBB.testSeparatingAxis, OBB.getProjectedRadius, Vec3.dot, Vec3.cross, Vec3.sub,
      Vec3.lengthSq, finRange_three, identAxes_zero, identAxes_one, identAxes_two,
      floorSlabLow, samplePlayer, initializePlayerOBB, fallingState, gravity,
      groundHeight, playerHeight, cameraEyeHeight, playerRadius, playerFeetOffset,
      abs_eq_max_neg, max_def]

/-- Witness for claim C9 (amended): a falling, running player holding
only the forward flag lands and the multiplier resets to `1`. -/
theorem landing_reset_when_running_witness :
    (tickVertical (some samplePlayer) [floorSlabLow] true false false false true
        (1 / 10) fallingState).bunnyHopMultiplier = 1 :=
  landing_reset_when_running samplePlayer [floorSlabLow] true false false false
    (1 / 10) fallingState
    (by norm_num [fallingState, gravity])
    (by norm_num [checkVerticalCollisionOBB, vertScanAux, vertTestOBB, tickNextPos,
      fallingState, OBB.intersectsOBB, OBB.candidateAxes, OBB.crossCandidates,
      OBB.testSeparatingAxis, OBB.getProjectedRadius, Vec3.dot, Vec3.cross, Vec3.sub,
      Vec3.lengthSq, finRange_three, identAxes_zero, identAxes_one, identAxes_two,
      floorSlabLow, gravity, playerHeight, cameraEyeHeight, playerRadius,
      playerFeetOffset, abs_eq_max_neg, max_def])
    (by decide)

/-- Claim C7: the tier-3 transparency filter — the code computes
`isTransparent` for a tier-3 mesh with a transparent material but the
registration gate is the literal `if (true)`, so the mesh is registered
as a collider anyway, contradicting the claimed exclusion. -/
theorem transparent_tier3_mesh_still_registered :
    isTransparent transparentMesh = true ∧
      shouldAddToCollision transparentMesh = true :=
  ⟨rfl, rfl⟩
